import Mathlib

/-!
Shallow embedding of the SYNC synchronization core (master clock, per-device
clocks, drift correction, ring buffers, latency measurement) and proofs of the
spec's testable properties against it.

Numeric values carried by the JavaScript source (`performance.now()` readings,
millisecond offsets, float samples) are modelled as rationals; buffer cursors
are integers.  Wall-clock instants are passed explicitly to each operation
(`now : ℚ`) in place of calls to `performance.now()`.
-/

/-- JavaScript's `%` on numbers with integral values: truncated remainder,
taking the sign of the dividend (Lean's `Int.tmod`). -/
def jsRem (a b : ℤ) : ℤ := Int.tmod a b

/- ===================== MasterClock (unnamed/part_001) ===================== -/

/-- State of `MasterClock`: `startTime`/`pauseTime` are `null` or a
`performance.now()` reading, `totalPausedTime` accumulates paused duration. -/
structure MasterClock where
  startTime : Option ℚ
  paused : Bool
  pauseTime : Option ℚ
  totalPausedTime : ℚ
  lookahead : ℚ
  isRunning : Bool
deriving Repr

/-- `new MasterClock(options)` with the default `lookahead = 100`. -/
def MasterClock.init (lookahead : ℚ := 100) : MasterClock :=
  { startTime := none, paused := false, pauseTime := none
    totalPausedTime := 0, lookahead := lookahead, isRunning := false }

/-- `MasterClock.start()` at wall-clock instant `now`. -/
def MasterClock.start (c : MasterClock) (now : ℚ) : MasterClock :=
  if c.isRunning then c
  else { c with startTime := some now, isRunning := true, paused := false,
                totalPausedTime := 0 }

/-- `MasterClock.stop()`. -/
def MasterClock.stop (c : MasterClock) : MasterClock :=
  if ¬ c.isRunning then c
  else { c with isRunning := false, startTime := none, paused := false }

/-- `MasterClock.pause()` at wall-clock instant `now`. -/
def MasterClock.pause (c : MasterClock) (now : ℚ) : MasterClock :=
  if ¬ c.isRunning ∨ c.paused then c
  else { c with paused := true, pauseTime := some now }

/-- `MasterClock.resume()` at wall-clock instant `now`. -/
def MasterClock.resume (c : MasterClock) (now : ℚ) : MasterClock :=
  if ¬ c.isRunning ∨ ¬ c.paused then c
  else { c with totalPausedTime := c.totalPausedTime + (now - c.pauseTime.getD 0),
                paused := false, pauseTime := none }

/-- `MasterClock.getCurrentTime()` read at wall-clock instant `now`.  The
`this.paused && this.pauseTime` guard uses JS truthiness, so a `null` (or zero)
`pauseTime` selects the unpaused branch. -/
def MasterClock.getCurrentTime (c : MasterClock) (now : ℚ) : ℚ :=
  if ¬ c.isRunning then 0
  else
    let st := c.startTime.getD 0
    let elapsed := now - st
    let elapsed :=
      if c.paused ∧ c.pauseTime.getD 0 ≠ 0 then
        elapsed - ((c.pauseTime.getD 0 - st) - c.totalPausedTime)
      else
        elapsed - c.totalPausedTime
    max 0 elapsed

/-- `MasterClock.getSyncTime()` read at wall-clock instant `now`. -/
def MasterClock.getSyncTime (c : MasterClock) (now : ℚ) : ℚ :=
  c.getCurrentTime now + c.lookahead

/- ===================== DeviceClock (core/clock/DeviceClock.js) =========== -/

/-- The quality strings produced by the synchronization components
(`'excellent' | 'good' | 'fair' | 'poor' | 'critical' | 'unknown'`). -/
inductive Quality where
  | excellent
  | good
  | fair
  | poor
  | critical
  | unknown
deriving DecidableEq, Repr

/-- Rank of the `good → fair → poor` band returned by
`DeviceClock.getQualityMetrics` (higher is better); `excellent`/`unknown`
never occur there. -/
def Quality.rank : Quality → ℕ
  | .good => 2
  | .fair => 1
  | .excellent => 3
  | _ => 0

/-- `values.reduce((sum, val) => sum + val, 0)`. -/
def listSum (l : List ℚ) : ℚ := l.foldl (· + ·) 0

/-- `_calculateMean`: `values.reduce(...) / values.length`. -/
def listMean (l : List ℚ) : ℚ := listSum l / l.length

/-- The list `|values[i] - values[i-1]|` for `i = 1 .. length-1`. -/
def consecutiveDiffs (l : List ℚ) : List ℚ :=
  (l.zip l.tail).map (fun p => |p.2 - p.1|)

/-- State of `DeviceClock`.  `jitterSq` holds the squared jitter: the source
stores `Math.sqrt` of this population variance, which has no exact rational
value; the square determines the stored value uniquely since jitter is
nonnegative. -/
structure DeviceClock where
  deviceId : String
  offset : ℚ
  driftRate : ℚ
  lastSyncTime : Option ℚ
  syncCount : ℕ
  syncTolerance : ℚ
  maxOffset : ℚ
  syncInterval : ℚ
  measurementTimeout : ℚ
  latency : ℚ
  jitterSq : ℚ
  recentLatencies : List ℚ
  maxLatencySamples : ℕ
deriving Repr

/-- `new DeviceClock(deviceId, options)` with the default options
(`syncTolerance = 1`, `maxOffset = 10`, `syncInterval = 1000`,
`measurementTimeout = 100`, `maxLatencySamples = 10`). -/
def DeviceClock.init (deviceId : String) : DeviceClock :=
  { deviceId := deviceId, offset := 0, driftRate := 0, lastSyncTime := none
    syncCount := 0, syncTolerance := 1, maxOffset := 10, syncInterval := 1000
    measurementTimeout := 100, latency := 0, jitterSq := 0
    recentLatencies := [], maxLatencySamples := 10 }

/-- `DeviceClock._calculateDriftAdjustment`.  The `if (!this.lastSyncTime)`
guard uses JS truthiness: a `null` or zero `lastSyncTime` yields 0. -/
def DeviceClock.calculateDriftAdjustment (c : DeviceClock) (currentTime : ℚ) : ℚ :=
  if c.lastSyncTime.getD 0 = 0 then 0
  else (c.driftRate * (currentTime - c.lastSyncTime.getD 0)) / 1000000

/-- `DeviceClock.getSynchronizedTime(masterTime)`. -/
def DeviceClock.getSynchronizedTime (c : DeviceClock) (masterTime : ℚ) : ℚ :=
  masterTime + c.offset + c.calculateDriftAdjustment masterTime

/-- `DeviceClock._updateLatencyMeasurement(latency)`: push onto the bounded
queue, recompute mean latency and (squared) jitter. -/
def DeviceClock.updateLatencyMeasurement (c : DeviceClock) (latency : ℚ) :
    DeviceClock :=
  let pushed := c.recentLatencies ++ [latency]
  let rl := if pushed.length > c.maxLatencySamples then pushed.drop 1 else pushed
  let newLatency := listSum rl / rl.length
  let variance := listSum (rl.map (fun v => (v - newLatency) ^ 2)) / rl.length
  { c with recentLatencies := rl, latency := newLatency, jitterSq := variance }

/-- `DeviceClock._updateDriftRate`: smoothed (α = 0.1) drift rate in ppm from
the offset delta over the elapsed master time.  The `if (!this.lastSyncTime)`
guard uses JS truthiness. -/
def DeviceClock.updateDriftRate (c : DeviceClock) (masterTime currentOffset
    previousOffset : ℚ) : DeviceClock :=
  if c.lastSyncTime.getD 0 = 0 then c
  else
    let timeDelta := masterTime - c.lastSyncTime.getD 0
    if timeDelta > 0 then
      let driftRatePpm := ((currentOffset - previousOffset) * 1000000) / timeDelta
      { c with driftRate := (1 / 10) * driftRatePpm + (9 / 10) * c.driftRate }
    else c

/-- `DeviceClock._calculateSyncAccuracy(offset)`:
`Math.round(100 * Math.max(0, 1 - |offset| / syncTolerance))`. -/
def DeviceClock.calculateSyncAccuracy (c : DeviceClock) (offset : ℚ) : ℤ :=
  round ((max 0 (1 - |offset| / c.syncTolerance)) * 100)

/-- Result object returned by `DeviceClock.updateOffset` /
`DeviceClock.performSyncMeasurement` (numeric fields are 0 on failure). -/
structure SyncResult where
  success : Bool
  offset : ℚ
  driftRate : ℚ
  latency : ℚ
  jitterSq : ℚ
  syncAccuracy : ℤ
deriving Repr, DecidableEq

/-- `DeviceClock.updateOffset(masterTime, deviceTime, roundTripTime)`:
one-way latency `rtt/2`, raw offset candidate `deviceTime - masterTime -
oneWayLatency`, exponential smoothing with α = 0.1, drift-rate update, sync
bookkeeping.  Returns the new state and the result object. -/
def DeviceClock.updateOffset (c : DeviceClock) (masterTime deviceTime
    roundTripTime : ℚ) : DeviceClock × SyncResult :=
  let oneWayLatency := roundTripTime / 2
  let syncOffset := deviceTime - masterTime - oneWayLatency
  let c1 := c.updateLatencyMeasurement oneWayLatency
  let previousOffset := c1.offset
  let newOffset := (1 / 10) * syncOffset + (9 / 10) * c1.offset
  let c2 := { c1 with offset := newOffset }
  let c3 := c2.updateDriftRate masterTime newOffset previousOffset
  let c4 := { c3 with lastSyncTime := some masterTime, syncCount := c3.syncCount + 1 }
  (c4,
   { success := true, offset := newOffset, driftRate := c3.driftRate
     latency := c3.latency, jitterSq := c3.jitterSq
     syncAccuracy := c3.calculateSyncAccuracy newOffset })

/-- `DeviceClock.performSyncMeasurement`: the round trip is measured around
the awaited ping; a round trip exceeding `measurementTimeout` throws before
`updateOffset` runs, so the catch block returns a failure result and the state
is untouched. -/
def DeviceClock.performSyncMeasurement (c : DeviceClock) (masterTime
    deviceResponseTime roundTripTime : ℚ) : DeviceClock × SyncResult :=
  if roundTripTime > c.measurementTimeout then
    (c, { success := false, offset := 0, driftRate := 0, latency := 0
          jitterSq := 0, syncAccuracy := 0 })
  else c.updateOffset masterTime deviceResponseTime roundTripTime

/-- `DeviceClock._calculateLatencyStability`. -/
def DeviceClock.calculateLatencyStability (c : DeviceClock) : ℚ :=
  if c.recentLatencies.length < 2 then 1
  else max 0 (1 - listMean (consecutiveDiffs c.recentLatencies) / 10)

/-- Metrics object returned by `DeviceClock.getQualityMetrics` (the
`recommendation` string is a pure function of `quality` and is omitted). -/
structure QualityMetrics where
  quality : Quality
  offsetMagnitude : ℚ
  latencyStability : ℚ
  syncAccuracy : ℤ
deriving Repr, DecidableEq

/-- `DeviceClock.getQualityMetrics()`: `poor` if `|offset| > 2·tolerance` or
`latency > 50`; `fair` if `|offset| > tolerance` or `latency > 20`; else
`good`. -/
def DeviceClock.getQualityMetrics (c : DeviceClock) : QualityMetrics :=
  let offsetMagnitude := |c.offset|
  let quality0 : Quality :=
    if offsetMagnitude > c.syncTolerance * 2 ∨ c.latency > 50 then .poor
    else if offsetMagnitude > c.syncTolerance ∨ c.latency > 20 then .fair
    else .good
  { quality := quality0, offsetMagnitude := offsetMagnitude
    latencyStability := c.calculateLatencyStability
    syncAccuracy := c.calculateSyncAccuracy c.offset }

/- ============ BufferManager (core/audio/BufferManager.js), per device ===== -/

/-- `TimeUtils.msToSamples(ms, sampleRate)`: `Math.round((ms / 1000) * sampleRate)`. -/
def msToSamples (ms sampleRate : ℚ) : ℤ := round (ms / 1000 * sampleRate)

/-- `Float32Array.set(data, start)`: overwrite `data.length` slots of `buf`
starting at index `start` (callers keep the run inside the array). -/
def setRange (buf data : List ℚ) (start : ℕ) : List ℚ :=
  buf.take start ++ data ++ buf.drop (start + data.length)

/-- One device's slice of the `BufferManager` maps: the circular
`Float32Array`, the cursor maps (`writePositions`, `readPositions`), the
`bufferDrift` entry and the per-device metadata.  `readPos` is an integer:
the source computes it with JS `%`, whose result takes the dividend's sign. -/
structure DeviceBuffer where
  buffer : List ℚ
  sampleRate : ℚ
  writePos : ℕ
  readPos : ℤ
  lastWriteTime : Option ℚ
  lastReadTime : Option ℚ
  writeCount : ℕ
  readCount : ℕ
  totalSamples : ℕ
  bufferDrift : ℚ
  correctionHistory : List (ℚ × ℚ)
deriving Repr

/-- `BufferManager.addDeviceBuffer`: fresh zeroed circular buffer with both
cursors at 0 and zero accumulated drift. -/
def DeviceBuffer.register (bufferSize : ℕ := 2048) (sampleRate : ℚ := 44100) :
    DeviceBuffer :=
  { buffer := List.replicate bufferSize 0, sampleRate := sampleRate
    writePos := 0, readPos := 0, lastWriteTime := none, lastReadTime := none
    writeCount := 0, readCount := 0, totalSamples := 0, bufferDrift := 0
    correctionHistory := [] }

/-- `BufferManager._calculateAvailableSamples`. -/
def DeviceBuffer.availableSamples (b : DeviceBuffer) : ℤ :=
  if (b.writePos : ℤ) ≥ b.readPos then (b.writePos : ℤ) - b.readPos
  else (b.buffer.length : ℤ) - b.readPos + b.writePos

/-- `BufferManager._calculateBufferUtilization` (the same branch formula as
`_calculateAvailableSamples`, divided by the capacity). -/
def DeviceBuffer.utilization (b : DeviceBuffer) : ℚ :=
  (b.availableSamples : ℚ) / b.buffer.length

/-- `BufferManager._detectBufferOverflow`: utilization above 95%. -/
def DeviceBuffer.detectBufferOverflow (b : DeviceBuffer) : Bool :=
  b.utilization > 95 / 100

/-- `BufferManager.writeAudioData(deviceId, audioData, timestamp)`: copy the
samples starting at `writePos`, wrapping at capacity; advance
`writePos = (writePos + n) % capacity`; stamp `lastWriteTime`.  Returns the
new state and the overflow flag emitted as a `bufferOverflow` event. -/
def DeviceBuffer.writeAudioData (b : DeviceBuffer) (floatData : List ℚ)
    (timestamp : ℚ) : DeviceBuffer × Bool :=
  let samplesToWrite := floatData.length
  let availableSpace := b.buffer.length - b.writePos
  let writeSize := min samplesToWrite availableSpace
  let buf1 := setRange b.buffer (floatData.take writeSize) b.writePos
  let buf2 :=
    if samplesToWrite > writeSize then setRange buf1 (floatData.drop writeSize) 0
    else buf1
  let b' := { b with
    buffer := buf2
    writePos := (b.writePos + samplesToWrite) % b.buffer.length
    lastWriteTime := some timestamp
    writeCount := b.writeCount + 1
    totalSamples := b.totalSamples + samplesToWrite }
  (b', b'.detectBufferOverflow)

/-- `BufferManager._calculateSamplesToSkip`: sample count for
`timestamp - lastWriteTime`, floored at 0.  `metadata.lastWriteTime ||
timestamp` uses JS truthiness (`null` or zero falls back to `timestamp`). -/
def DeviceBuffer.samplesToSkip (b : DeviceBuffer) (timestamp : ℚ) : ℤ :=
  let lwt := if b.lastWriteTime.getD 0 = 0 then timestamp else b.lastWriteTime.getD 0
  max 0 (msToSamples (timestamp - lwt) b.sampleRate)

/-- `BufferManager._getDriftAdjustment`: `Math.round(0.1 * bufferDrift)`. -/
def DeviceBuffer.getDriftAdjustment (b : DeviceBuffer) : ℤ :=
  round ((1 / 10) * b.bufferDrift)

/-- `BufferManager._readBufferData` for a cursor inside the array: one copy,
or two (tail then head) when the run crosses the end.  (With a negative
cursor — reachable, see `C2_counterexample` — the JS `subarray` calls clamp
negative indices; no claim depends on the samples returned there.) -/
def DeviceBuffer.readBufferData (buf : List ℚ) (startPos count : ℤ) : List ℚ :=
  let availableSamples := (buf.length : ℤ) - startPos
  if count ≤ availableSamples then
    (buf.drop startPos.toNat).take count.toNat
  else
    (buf.drop startPos.toNat) ++ buf.take (count - availableSamples).toNat

/-- Result object of `BufferManager.readSynchronizedData`. -/
structure ReadResult where
  data : List ℚ
  samples : ℤ
  readPosition : ℤ
  driftAdjustment : ℤ
deriving Repr

/-- `BufferManager.readSynchronizedData(deviceId, timestamp, sampleCount)`:
skip by the timestamp delta, shift by the (rounded, 10%-smoothed) buffer
drift, read `min(sampleCount, availableSamples)` samples and advance
`readPos`.  All cursor arithmetic is JS `%` (`jsRem`). -/
def DeviceBuffer.readSynchronizedData (b : DeviceBuffer) (timestamp : ℚ)
    (sampleCount : ℤ) : DeviceBuffer × ReadResult :=
  let len : ℤ := b.buffer.length
  let targetReadPos := jsRem (b.readPos + b.samplesToSkip timestamp) len
  let driftAdjustment := b.getDriftAdjustment
  let adjustedReadPos := jsRem (targetReadPos + driftAdjustment) len
  let availableSamples := b.availableSamples
  let actualSampleCount :=
    if sampleCount > 0 then min sampleCount availableSamples else availableSamples
  let readData := DeviceBuffer.readBufferData b.buffer adjustedReadPos actualSampleCount
  let b' := { b with
    readPos := jsRem (adjustedReadPos + actualSampleCount) len
    lastReadTime := some timestamp
    readCount := b.readCount + 1 }
  (b', { data := readData, samples := actualSampleCount
         readPosition := adjustedReadPos, driftAdjustment := driftAdjustment })

/-- `BufferManager.applyDriftCorrection(deviceId, driftAmount)`: accumulate
the sample-domain drift and record `(driftAmount, newDrift)` in the bounded
correction history. -/
def DeviceBuffer.applyDriftCorrection (b : DeviceBuffer) (driftAmount : ℚ) :
    DeviceBuffer :=
  let newDrift := b.bufferDrift + driftAmount
  let pushed := b.correctionHistory ++ [(driftAmount, newDrift)]
  let history := if pushed.length > 100 then pushed.drop 1 else pushed
  { b with bufferDrift := newDrift, correctionHistory := history }

/-- `BufferManager.clearDeviceBuffer(deviceId)`. -/
def DeviceBuffer.clearDeviceBuffer (b : DeviceBuffer) : DeviceBuffer :=
  { b with
    buffer := List.replicate b.buffer.length 0
    writePos := 0
    readPos := 0
    bufferDrift := 0
    correctionHistory := [] }

/- ============== DriftCorrection (core/clock/DriftCorrection.js) =========== -/

/-- Configuration of `DriftCorrection` (constructor defaults:
`driftThreshold = 0.5`, `maxCorrection = 2`, `correctionInterval = 100`,
`adjustmentSmoothing = 0.1`). -/
structure DriftCorrectionConfig where
  driftThreshold : ℚ := 1 / 2
  maxCorrection : ℚ := 2
  correctionInterval : ℚ := 100
  adjustmentSmoothing : ℚ := 1 / 10
deriving Repr

/-- Per-device entry of `DriftCorrection.correctionState`. -/
structure CorrectionState where
  pendingAdjustment : ℚ
  lastAdjustment : ℚ
  correctionCount : ℕ
  quality : Quality
deriving Repr, DecidableEq

/-- `DriftCorrection.addDevice`: the fresh per-device correction state. -/
def CorrectionState.init : CorrectionState :=
  { pendingAdjustment := 0, lastAdjustment := 0, correctionCount := 0
    quality := .unknown }

/-- Correction record built by `DriftCorrection._correctDeviceDrift`
(the not-applied branch carries no `adjustment` field; it is 0 here). -/
structure Correction where
  applied : Bool
  drift : ℚ
  adjustment : ℚ
  quality : Quality
deriving Repr, DecidableEq

/-- `DriftCorrection._correctDeviceDrift(deviceId, deviceClock, masterTime,
force)`: skip when `|drift| ≤ driftThreshold` and not forced, else clamp
`-drift` to `[-maxCorrection, maxCorrection]` and smooth it against the
pending adjustment (`β = adjustmentSmoothing`). -/
def correctDeviceDrift (cfg : DriftCorrectionConfig) (state : CorrectionState)
    (deviceClock : DeviceClock) (masterTime : ℚ) (force : Bool) :
    CorrectionState × Correction :=
  let deviceTime := deviceClock.getSynchronizedTime masterTime
  let drift := deviceTime - masterTime
  let needsCorrection := force ∨ |drift| > cfg.driftThreshold
  if ¬needsCorrection then
    (state, { applied := false, drift := drift, adjustment := 0
              quality := deviceClock.getQualityMetrics.quality })
  else
    let rawAdjustment := -drift
    let clampedAdjustment :=
      max (-cfg.maxCorrection) (min cfg.maxCorrection rawAdjustment)
    let smoothedAdjustment := cfg.adjustmentSmoothing * clampedAdjustment +
      (1 - cfg.adjustmentSmoothing) * state.pendingAdjustment
    let q := deviceClock.getQualityMetrics.quality
    ({ pendingAdjustment := smoothedAdjustment
       lastAdjustment := smoothedAdjustment
       correctionCount := state.correctionCount + 1, quality := q },
     { applied := true, drift := drift, adjustment := smoothedAdjustment
       quality := q })

/-- One device's correction state after `n` correction passes
(`performCorrection` iterations and/or `forceDeviceCorrection` calls),
starting from the fresh state installed by `addDevice`.  `steps k` supplies
the device clock seen at pass `k`, the master time, and the force flag. -/
def correctionRun (cfg : DriftCorrectionConfig)
    (steps : ℕ → DeviceClock × ℚ × Bool) : ℕ → CorrectionState
  | 0 => CorrectionState.init
  | n + 1 =>
    (correctDeviceDrift cfg (correctionRun cfg steps n) (steps n).1
      (steps n).2.1 (steps n).2.2).1

/- ===== LatencyCompensation (core/audio/AudioSyncEngine.js, second class) == -/

/-- A measurement object produced by
`LatencyCompensation._singleLatencyMeasurement` (failures carry zeros). -/
structure LatMeasurement where
  roundTripTime : ℚ
  oneWayLatency : ℚ
  success : Bool
deriving Repr, DecidableEq

/-- `LatencyCompensation._singleLatencyMeasurement` as a function of the
measured round trip: a round trip above `timeout`, a non-positive round trip,
or a one-way latency above `maxLatency` throws, and the catch block turns it
into a failure measurement. -/
def singleLatencyMeasurement (timeout maxLatency rtt : ℚ) : LatMeasurement :=
  if rtt > timeout then { roundTripTime := 0, oneWayLatency := 0, success := false }
  else if rtt ≤ 0 then { roundTripTime := 0, oneWayLatency := 0, success := false }
  else if rtt / 2 > maxLatency then
    { roundTripTime := 0, oneWayLatency := 0, success := false }
  else { roundTripTime := rtt, oneWayLatency := rtt / 2, success := true }

/-- `LatencyCompensation._performLatencyMeasurement`: `sampleSize` sequential
probes, each contributing exactly one measurement object
(`_singleLatencyMeasurement` catches its own failures).  One probe is
represented by its measured round trip. -/
def performLatencyMeasurement (timeout maxLatency : ℚ) (rtts : List ℚ) :
    List LatMeasurement :=
  rtts.map (singleLatencyMeasurement timeout maxLatency)

/-- Insert into an ascending list (one step of modelling
`[...values].sort((a, b) => a - b)`). -/
def insertAsc (x : ℚ) : List ℚ → List ℚ
  | [] => [x]
  | y :: ys => if x ≤ y then x :: y :: ys else y :: insertAsc x ys

/-- Ascending sort, `[...values].sort((a, b) => a - b)`. -/
def sortAsc (l : List ℚ) : List ℚ := l.foldr insertAsc []

/-- `LatencyCompensation._calculateMedian`. -/
def listMedian (l : List ℚ) : ℚ :=
  let sorted := sortAsc l
  let mid := sorted.length / 2
  if sorted.length % 2 ≠ 0 then sorted.getD mid 0
  else (sorted.getD (mid - 1) 0 + sorted.getD mid 0) / 2

/-- The population variance `_calculateMean(squaredDiffs)` inside
`LatencyCompensation._calculateStandardDeviation` (the source stores its
`Math.sqrt`, which has no exact rational value). -/
def listVariance (l : List ℚ) : ℚ :=
  listMean (l.map (fun v => (v - listMean l) ^ 2))

/-- `LatencyCompensation._calculateJitter`: mean absolute consecutive
difference, 0 for fewer than two values. -/
def listJitter (l : List ℚ) : ℚ :=
  if l.length < 2 then 0 else listMean (consecutiveDiffs l)

/-- `LatencyCompensation._assessLatencyQuality` with the default thresholds
(excellent ≤ 10, good ≤ 25, fair ≤ 50, poor ≤ 100, else critical). -/
def assessLatencyQuality (latency : ℚ) : Quality :=
  if latency ≤ 10 then .excellent
  else if latency ≤ 25 then .good
  else if latency ≤ 50 then .fair
  else if latency ≤ 100 then .poor
  else .critical

/-- Result of `LatencyCompensation._calculateLatencyStatistics`
(`varianceOneWay` stands for the squared `standardDeviation`). -/
structure LatencyStats where
  latency : ℚ
  roundTripTime : ℚ
  medianLatency : ℚ
  medianRoundTrip : ℚ
  varianceOneWay : ℚ
  jitter : ℚ
  quality : Quality
  sampleCount : ℕ
  totalAttempts : ℕ
deriving Repr, DecidableEq

/-- `LatencyCompensation._calculateLatencyStatistics(deviceId, measurements)`:
throws `'No successful latency measurements'` when no measurement succeeded,
else aggregates over the successful measurements only. -/
def calculateLatencyStatistics (measurements : List LatMeasurement) :
    Except String LatencyStats :=
  let successful := measurements.filter (·.success)
  if successful.length = 0 then .error "No successful latency measurements"
  else
    let roundTripTimes := successful.map (·.roundTripTime)
    let oneWayLatencies := successful.map (·.oneWayLatency)
    .ok { latency := listMean oneWayLatencies
          roundTripTime := listMean roundTripTimes
          medianLatency := listMedian oneWayLatencies
          medianRoundTrip := listMedian roundTripTimes
          varianceOneWay := listVariance oneWayLatencies
          jitter := listJitter oneWayLatencies
          quality := assessLatencyQuality (listMean oneWayLatencies)
          sampleCount := successful.length
          totalAttempts := measurements.length }

/-- The default `DriftCorrection` configuration. -/
def defaultDriftConfig : DriftCorrectionConfig := {}

/-- Measured round trips of a 10-probe batch in which probes 2, 5 and 9
exceed the default 1000 ms timeout (Scenario E). -/
def scenarioERtts : List ℚ := [10, 1500, 20, 30, 2000, 40, 50, 60, 3000, 70]

/-- The statistics of the Scenario E batch: aggregates of the 7 surviving
round trips `[10, 20, 30, 40, 50, 60, 70]`. -/
def scenarioEStats : LatencyStats :=
  { latency := 20, roundTripTime := 40, medianLatency := 20
    medianRoundTrip := 40, varianceOneWay := 100, jitter := 5
    quality := .good, sampleCount := 7, totalAttempts := 10 }

/- ===== Repeated sync measurements (for the smoothing-convergence claim) === -/

/-- The device clock after `n` successive `updateOffset` calls with argument
streams `m`, `d`, `r`. -/
def syncIter (c0 : DeviceClock) (m d r : ℕ → ℚ) : ℕ → DeviceClock
  | 0 => c0
  | n + 1 => ((syncIter c0 m d r n).updateOffset (m n) (d n) (r n)).1

/- ===================== Helper lemmas ===================== -/

theorem updateDriftRate_offset (c : DeviceClock) (a b e : ℚ) :
    (c.updateDriftRate a b e).offset = c.offset := by
  simp only [DeviceClock.updateDriftRate]
  split
  · rfl
  · split <;> rfl

theorem updateDriftRate_measurementTimeout (c : DeviceClock) (a b e : ℚ) :
    (c.updateDriftRate a b e).measurementTimeout = c.measurementTimeout := by
  simp only [DeviceClock.updateDriftRate]
  split
  · rfl
  · split <;> rfl

theorem updateOffset_offset (c : DeviceClock) (m d r : ℚ) :
    ((c.updateOffset m d r).1).offset
      = (1 / 10) * (d - m - r / 2) + (9 / 10) * c.offset := by
  simp [DeviceClock.updateOffset, updateDriftRate_offset,
    DeviceClock.updateLatencyMeasurement]

/-- Closed form of the smoothed offset under a constant raw candidate `X`. -/
theorem syncIter_offset (c0 : DeviceClock) (m d r : ℕ → ℚ) (X : ℚ)
    (hX : ∀ n, d n - m n - r n / 2 = X) (n : ℕ) :
    (syncIter c0 m d r n).offset = X + (9 / 10) ^ n * (c0.offset - X) := by
  induction n with
  | zero => simp [syncIter]
  | succ k ih =>
      rw [syncIter, updateOffset_offset, ih, hX k]
      ring

theorem convex_between (X o t : ℚ) (h0 : 0 ≤ t) (h1 : t ≤ 1) :
    min o X ≤ X + t * (o - X) ∧ X + t * (o - X) ≤ max o X := by
  rcases le_total o X with h | h
  · rw [min_eq_left h, max_eq_right h]
    constructor <;> nlinarith
  · rw [min_eq_right h, max_eq_left h]
    constructor <;> nlinarith

theorem clamp_abs_le (M x : ℚ) (hM : 0 ≤ M) : |max (-M) (min M x)| ≤ M := by
  rw [abs_le]
  exact ⟨le_max_left _ _, max_le (by linarith) (min_le_left _ _)⟩

theorem smooth_abs_le (β c p M : ℚ) (hβ0 : 0 ≤ β) (hβ1 : β ≤ 1)
    (hc : |c| ≤ M) (hp : |p| ≤ M) : |β * c + (1 - β) * p| ≤ M := by
  have h1 : |β * c + (1 - β) * p| ≤ |β * c| + |(1 - β) * p| := abs_add _ _
  have hb : |β| = β := abs_of_nonneg hβ0
  have hb' : |1 - β| = 1 - β := abs_of_nonneg (by linarith)
  rw [abs_mul, abs_mul, hb, hb'] at h1
  have h2 : β * |c| ≤ β * M := mul_le_mul_of_nonneg_left hc hβ0
  have h3 : (1 - β) * |p| ≤ (1 - β) * M :=
    mul_le_mul_of_nonneg_left hp (by linarith)
  calc |β * c + (1 - β) * p| ≤ β * |c| + (1 - β) * |p| := h1
    _ ≤ β * M + (1 - β) * M := add_le_add h2 h3
    _ = M := by ring

/-- One correction pass keeps the per-device adjustments inside
`[-maxCorrection, maxCorrection]`. -/
theorem correctDeviceDrift_bounds (cfg : DriftCorrectionConfig)
    (state : CorrectionState) (clk : DeviceClock) (t : ℚ) (f : Bool)
    (hβ0 : 0 ≤ cfg.adjustmentSmoothing) (hβ1 : cfg.adjustmentSmoothing ≤ 1)
    (hM : 0 ≤ cfg.maxCorrection)
    (hp : |state.pendingAdjustment| ≤ cfg.maxCorrection)
    (hl : |state.lastAdjustment| ≤ cfg.maxCorrection) :
    |(correctDeviceDrift cfg state clk t f).1.pendingAdjustment|
        ≤ cfg.maxCorrection ∧
    |(correctDeviceDrift cfg state clk t f).1.lastAdjustment|
        ≤ cfg.maxCorrection ∧
    ((correctDeviceDrift cfg state clk t f).2.applied = true →
      |(correctDeviceDrift cfg state clk t f).2.adjustment|
        ≤ cfg.maxCorrection) := by
  by_cases hn : (f = true ∨
      |clk.getSynchronizedTime t - t| > cfg.driftThreshold)
  · have hs : |cfg.adjustmentSmoothing *
        (max (-cfg.maxCorrection) (min cfg.maxCorrection
          (t - clk.getSynchronizedTime t))) +
        (1 - cfg.adjustmentSmoothing) * state.pendingAdjustment|
          ≤ cfg.maxCorrection :=
      smooth_abs_le _ _ _ _ hβ0 hβ1 (clamp_abs_le _ _ hM) hp
    simp only [correctDeviceDrift, hn]
    simp [hs]
  · simp only [correctDeviceDrift, hn]
    simp [hp, hl]

/- ===================== Claim theorems ===================== -/

/-- C1: the claim says `getCurrentTime()` is frozen during a `pause()`
interval.  Evaluating the embedded `MasterClock` code refutes this: after
`start()` at wall-clock 10 and `pause()` at 110, reads at wall-clock 120 and
130 (both inside the same pause interval) return 10 and 20 — the paused
branch of `getCurrentTime` computes `now - pauseTime + totalPausedTime`,
which keeps growing while paused (and drops from 100 to 0 at the pause
instant, violating monotonicity as well). -/
theorem masterClock_paused_not_frozen :
    ((MasterClock.init 100 |>.start 10).pause 110).paused = true ∧
    ((MasterClock.init 100 |>.start 10).pause 110).getCurrentTime 120 = 10 ∧
    ((MasterClock.init 100 |>.start 10).pause 110).getCurrentTime 130 = 20 := by
  refine ⟨rfl, ?_, ?_⟩ <;>
    norm_num [MasterClock.getCurrentTime, MasterClock.init, MasterClock.start,
      MasterClock.pause]

/-- C2: the claim says every buffer operation keeps `0 ≤ readPos < capacity`,
in particular `readSynchronizedData` after a negative accumulated drift.
Evaluating the embedded code refutes this: on a fresh capacity-8 buffer,
`applyDriftCorrection(-100)` followed by `readSynchronizedData` stores
`readPos = -2`, because JS `%` keeps the sign of its negative dividend
(`(0 - 10) % 8 = -2`). -/
theorem readSynchronizedData_negative_drift_cursor_bug :
    (((DeviceBuffer.register 8 44100).applyDriftCorrection (-100)
      ).readSynchronizedData 0 0).1.readPos = -2 ∧
    ¬ (0 ≤ (((DeviceBuffer.register 8 44100).applyDriftCorrection (-100)
      ).readSynchronizedData 0 0).1.readPos) := by
  have h : (((DeviceBuffer.register 8 44100).applyDriftCorrection (-100)
      ).readSynchronizedData 0 0).1.readPos = -2 := by
    norm_num [DeviceBuffer.register, DeviceBuffer.applyDriftCorrection,
      DeviceBuffer.readSynchronizedData, DeviceBuffer.samplesToSkip,
      DeviceBuffer.getDriftAdjustment, DeviceBuffer.availableSamples,
      msToSamples, jsRem, round_eq]
    decide
  exact ⟨h, by rw [h]; decide⟩

/-- C3: a fresh `DeviceClock` with tolerance 1 receiving
`updateOffset(masterTime = 1000, deviceTime = 1003, roundTripTime = 4)`
computes one-way latency 2, raw candidate offset 1003 − 1000 − 2 = 1, moves
the smoothed offset from 0 to exactly 0.1, and reports
`syncAccuracy = round(100·max(0, 1 − 0.1/1)) = 90`. -/
theorem deviceClock_scenarioB :
    (4 : ℚ) / 2 = 2 ∧
    (1003 : ℚ) - 1000 - 4 / 2 = 1 ∧
    (DeviceClock.init "a").offset = 0 ∧
    (DeviceClock.init "a").syncTolerance = 1 ∧
    ((DeviceClock.init "a").updateOffset 1000 1003 4).1.offset = 1 / 10 ∧
    ((DeviceClock.init "a").updateOffset 1000 1003 4).2.offset = 1 / 10 ∧
    ((DeviceClock.init "a").updateOffset 1000 1003 4).2.latency = 2 ∧
    ((DeviceClock.init "a").updateOffset 1000 1003 4).2.syncAccuracy = 90 := by
  refine ⟨by norm_num, by norm_num, rfl, rfl, ?_, ?_, ?_, ?_⟩ <;>
    norm_num [DeviceClock.updateOffset, DeviceClock.init,
      DeviceClock.updateLatencyMeasurement, DeviceClock.updateDriftRate,
      DeviceClock.calculateSyncAccuracy, listSum, round_eq, max_def,
      abs_of_nonneg]

/-- C4: `writeAudioData` always advances
`writePos = (writePos + n) % capacity` and stamps `lastWriteTime` with the
supplied timestamp; on a fresh capacity-8 buffer, writing `[1,2,3,4,5]`
leaves `writePos = 5`, and a further write of `[6,7,8,9,10]` wraps so the
stored array is `[9,10,3,4,5,6,7,8]` with `writePos = 2`. -/
theorem ringBuffer_write_wrap :
    (∀ (b : DeviceBuffer) (data : List ℚ) (ts : ℚ),
      ((b.writeAudioData data ts).1).writePos
          = (b.writePos + data.length) % b.buffer.length ∧
      ((b.writeAudioData data ts).1).lastWriteTime = some ts) ∧
    ((DeviceBuffer.register 8 44100).writeAudioData [1,2,3,4,5] 100).1.writePos
        = 5 ∧
    (((DeviceBuffer.register 8 44100).writeAudioData [1,2,3,4,5] 100
      ).1.writeAudioData [6,7,8,9,10] 200).1.buffer = [9,10,3,4,5,6,7,8] ∧
    (((DeviceBuffer.register 8 44100).writeAudioData [1,2,3,4,5] 100
      ).1.writeAudioData [6,7,8,9,10] 200).1.writePos = 2 := by
  refine ⟨fun b data ts => ⟨rfl, rfl⟩, ?_, ?_, ?_⟩ <;>
    norm_num [DeviceBuffer.register, DeviceBuffer.writeAudioData, setRange,
      List.replicate]

/-- C6: `performSyncMeasurement` rejects a measurement whose round trip
exceeds `measurementTimeout`: it returns a failure result and leaves the
entire `DeviceClock` state exactly as it was. -/
theorem syncMeasurement_timeout_rejected (c : DeviceClock) (m d r : ℚ)
    (h : r > c.measurementTimeout) :
    (c.performSyncMeasurement m d r).1 = c ∧
    (c.performSyncMeasurement m d r).2.success = false := by
  simp [DeviceClock.performSyncMeasurement, h]

theorem syncMeasurement_timeout_rejected_witness :
    (200 : ℚ) > (DeviceClock.init "dev").measurementTimeout ∧
    ((DeviceClock.init "dev").performSyncMeasurement 1000 1003 200).1
        = DeviceClock.init "dev" ∧
    ((DeviceClock.init "dev").performSyncMeasurement 1000 1003 200).2.success
        = false := by
  have h : (200 : ℚ) > (DeviceClock.init "dev").measurementTimeout := by
    norm_num [DeviceClock.init]
  exact ⟨h, (syncMeasurement_timeout_rejected _ 1000 1003 200 h).1,
    (syncMeasurement_timeout_rejected _ 1000 1003 200 h).2⟩

/-- C10: whenever the master clock is not running — as a fresh clock is, and
as any clock is after `stop()` — `getCurrentTime()` returns 0 regardless of
history, so `getSyncTime()` returns exactly the configured lookahead. -/
theorem clock_not_running_returns_zero :
    (∀ l : ℚ, (MasterClock.init l).isRunning = false) ∧
    (∀ c : MasterClock, c.stop.isRunning = false) ∧
    (∀ (c : MasterClock) (now : ℚ), c.isRunning = false →
      c.getCurrentTime now = 0 ∧ c.getSyncTime now = c.lookahead) := by
  refine ⟨fun _ => rfl, fun c => ?_, fun c now h => ?_⟩
  · simp only [MasterClock.stop]
    split
    · simp_all
    · rfl
  · constructor <;>
      simp [MasterClock.getCurrentTime, MasterClock.getSyncTime, h]

theorem clock_not_running_returns_zero_witness :
    (MasterClock.init 100).isRunning = false ∧
    (MasterClock.init 100).getCurrentTime 5 = 0 ∧
    (MasterClock.init 100).getSyncTime 5 = (MasterClock.init 100).lookahead :=
  ⟨rfl, (clock_not_running_returns_zero.2.2 _ 5 rfl).1,
    (clock_not_running_returns_zero.2.2 _ 5 rfl).2⟩

/-- C5: for every device and every sequence of correction passes
(`performCorrection` iterations and `forceDeviceCorrection` calls) from the
fresh per-device state, the stored `pendingAdjustment` and `lastAdjustment`
stay within `maxCorrection` in absolute value, and so does the `adjustment`
recorded in any applied correction, no matter how large the raw drift is —
provided the smoothing factor lies in `[0, 1]` and `maxCorrection ≥ 0`
(defaults 0.1 and 2). -/
theorem driftCorrection_adjustment_clamped (cfg : DriftCorrectionConfig)
    (steps : ℕ → DeviceClock × ℚ × Bool)
    (hβ0 : 0 ≤ cfg.adjustmentSmoothing) (hβ1 : cfg.adjustmentSmoothing ≤ 1)
    (hM : 0 ≤ cfg.maxCorrection) (n : ℕ) :
    |(correctionRun cfg steps n).pendingAdjustment| ≤ cfg.maxCorrection ∧
    |(correctionRun cfg steps n).lastAdjustment| ≤ cfg.maxCorrection ∧
    ((correctDeviceDrift cfg (correctionRun cfg steps n) (steps n).1
        (steps n).2.1 (steps n).2.2).2.applied = true →
      |(correctDeviceDrift cfg (correctionRun cfg steps n) (steps n).1
        (steps n).2.1 (steps n).2.2).2.adjustment| ≤ cfg.maxCorrection) := by
  have hrun : ∀ k : ℕ,
      |(correctionRun cfg steps k).pendingAdjustment| ≤ cfg.maxCorrection ∧
      |(correctionRun cfg steps k).lastAdjustment| ≤ cfg.maxCorrection := by
    intro k
    induction k with
    | zero =>
        constructor <;> simpa [correctionRun, CorrectionState.init] using hM
    | succ j ih =>
        have h := correctDeviceDrift_bounds cfg (correctionRun cfg steps j)
          (steps j).1 (steps j).2.1 (steps j).2.2 hβ0 hβ1 hM ih.1 ih.2
        exact ⟨h.1, h.2.1⟩
  exact ⟨(hrun n).1, (hrun n).2,
    (correctDeviceDrift_bounds cfg (correctionRun cfg steps n)
      (steps n).1 (steps n).2.1 (steps n).2.2 hβ0 hβ1 hM
      (hrun n).1 (hrun n).2).2.2⟩

theorem driftCorrection_adjustment_clamped_witness :
    (0 : ℚ) ≤ defaultDriftConfig.adjustmentSmoothing ∧
    defaultDriftConfig.adjustmentSmoothing ≤ 1 ∧
    (0 : ℚ) ≤ defaultDriftConfig.maxCorrection ∧
    |(correctionRun defaultDriftConfig
        (fun _ => (DeviceClock.init "d", 0, true)) 1).pendingAdjustment|
      ≤ defaultDriftConfig.maxCorrection := by
  refine ⟨by norm_num [defaultDriftConfig], by norm_num [defaultDriftConfig],
    by norm_num [defaultDriftConfig], ?_⟩
  exact (driftCorrection_adjustment_clamped defaultDriftConfig
    (fun _ => (DeviceClock.init "d", 0, true))
    (by norm_num [defaultDriftConfig]) (by norm_num [defaultDriftConfig])
    (by norm_num [defaultDriftConfig]) 1).1

/-- C8: repeated `updateOffset` calls whose arguments always yield the same
raw candidate offset `X` keep the smoothed offset between its starting value
and `X` (never overshooting past `X`), and bring it within any `ε > 0` of
`X` after finitely many iterations, by the smoothing update
`offset' = (1/10)·X + (9/10)·offset`. -/
theorem offset_smoothing_convergence (c0 : DeviceClock) (m d r : ℕ → ℚ)
    (X : ℚ) (hX : ∀ n, d n - m n - r n / 2 = X) (ε : ℚ) (hε : 0 < ε) :
    (∀ n : ℕ, min c0.offset X ≤ (syncIter c0 m d r n).offset ∧
      (syncIter c0 m d r n).offset ≤ max c0.offset X) ∧
    ∃ N : ℕ, ∀ n ≥ N, |(syncIter c0 m d r n).offset - X| < ε := by
  have hclosed := syncIter_offset c0 m d r X hX
  constructor
  · intro n
    have h0 : (0 : ℚ) ≤ (9 / 10) ^ n := by positivity
    have h1 : ((9 : ℚ) / 10) ^ n ≤ 1 := pow_le_one₀ (by norm_num) (by norm_num)
    rw [hclosed n]
    exact convex_between X c0.offset ((9 / 10) ^ n) h0 h1
  · obtain ⟨N, hN⟩ := exists_pow_lt_of_lt_one
      (x := ε / (|c0.offset - X| + 1)) (y := (9 : ℚ) / 10)
      (by positivity) (by norm_num)
    refine ⟨N, fun n hn => ?_⟩
    rw [hclosed n]
    have habs : |X + (9 / 10) ^ n * (c0.offset - X) - X|
        = (9 / 10) ^ n * |c0.offset - X| := by
      rw [add_sub_cancel_left, abs_mul, abs_of_nonneg (by positivity :
        (0 : ℚ) ≤ (9 / 10) ^ n)]
    rw [habs]
    have hmono : ((9 : ℚ) / 10) ^ n ≤ (9 / 10) ^ N :=
      pow_le_pow_of_le_one (by norm_num) (by norm_num) hn
    calc ((9 : ℚ) / 10) ^ n * |c0.offset - X|
        ≤ (9 / 10) ^ N * (|c0.offset - X| + 1) :=
          mul_le_mul hmono (by linarith) (abs_nonneg _) (by positivity)
      _ < (ε / (|c0.offset - X| + 1)) * (|c0.offset - X| + 1) :=
          mul_lt_mul_of_pos_right hN (by positivity)
      _ = ε := by field_simp

theorem offset_smoothing_convergence_witness :
    ((0 : ℚ) < 1) ∧
    ((∀ n : ℕ,
        min (DeviceClock.init "w").offset 1 ≤
          (syncIter (DeviceClock.init "w") (fun _ => 1000) (fun _ => 1003)
            (fun _ => 4) n).offset ∧
        (syncIter (DeviceClock.init "w") (fun _ => 1000) (fun _ => 1003)
            (fun _ => 4) n).offset ≤ max (DeviceClock.init "w").offset 1) ∧
      ∃ N : ℕ, ∀ n ≥ N,
        |(syncIter (DeviceClock.init "w") (fun _ => 1000) (fun _ => 1003)
            (fun _ => 4) n).offset - 1| < 1) :=
  ⟨by norm_num,
    offset_smoothing_convergence (DeviceClock.init "w") (fun _ => 1000)
      (fun _ => 1003) (fun _ => 4) 1 (fun _ => by norm_num) 1 (by norm_num)⟩

/-- The branch structure of `getQualityMetrics` is monotone: a larger offset
magnitude never lands in a better band. -/
theorem band_rank_mono (T L a1 a2 : ℚ) (h : a1 ≤ a2) :
    Quality.rank (if a2 > T * 2 ∨ L > 50 then .poor
      else if a2 > T ∨ L > 20 then .fair else .good)
    ≤ Quality.rank (if a1 > T * 2 ∨ L > 50 then .poor
      else if a1 > T ∨ L > 20 then .fair else .good) := by
  by_cases hA1 : a1 > T * 2 ∨ L > 50
  · have hA2 : a2 > T * 2 ∨ L > 50 := hA1.imp (fun h' => h'.trans_le h) id
    simp [hA1, hA2]
  · by_cases hB1 : a1 > T ∨ L > 20
    · have hB2 : a2 > T ∨ L > 20 := hB1.imp (fun h' => h'.trans_le h) id
      by_cases hA2 : a2 > T * 2 ∨ L > 50 <;>
        simp [hA1, hA2, hB1, hB2, Quality.rank]
    · simp only [hA1, hB1, if_false]
      split_ifs <;> simp [Quality.rank]

/-- C9: for fixed latency and tolerance, the quality band reported by
`getQualityMetrics` is monotone in `|offset|`: a larger offset magnitude
never yields a better band (`poor` if `|offset| > 2·tolerance` or
`latency > 50`; `fair` if `|offset| > tolerance` or `latency > 20`; else
`good`). -/
theorem quality_monotone_in_offset (c1 c2 : DeviceClock)
    (hl : c1.latency = c2.latency) (ht : c1.syncTolerance = c2.syncTolerance)
    (ho : |c1.offset| ≤ |c2.offset|) :
    (c2.getQualityMetrics.quality).rank ≤ (c1.getQualityMetrics.quality).rank := by
  have e1 : c1.getQualityMetrics.quality =
      (if |c1.offset| > c1.syncTolerance * 2 ∨ c1.latency > 50 then Quality.poor
       else if |c1.offset| > c1.syncTolerance ∨ c1.latency > 20 then Quality.fair
       else Quality.good) := rfl
  have e2 : c2.getQualityMetrics.quality =
      (if |c2.offset| > c2.syncTolerance * 2 ∨ c2.latency > 50 then Quality.poor
       else if |c2.offset| > c2.syncTolerance ∨ c2.latency > 20 then Quality.fair
       else Quality.good) := rfl
  rw [e1, e2, ← hl, ← ht]
  exact band_rank_mono c1.syncTolerance c1.latency |c1.offset| |c2.offset| ho

theorem quality_monotone_in_offset_witness :
    (DeviceClock.init "p").latency
        = ({ DeviceClock.init "p" with offset := 5 }).latency ∧
    (DeviceClock.init "p").syncTolerance
        = ({ DeviceClock.init "p" with offset := 5 }).syncTolerance ∧
    |(DeviceClock.init "p").offset|
        ≤ |({ DeviceClock.init "p" with offset := 5 }).offset| ∧
    (({ DeviceClock.init "p" with offset := 5 }).getQualityMetrics.quality).rank
        ≤ ((DeviceClock.init "p").getQualityMetrics.quality).rank := by
  refine ⟨rfl, rfl, by norm_num [DeviceClock.init], ?_⟩
  exact quality_monotone_in_offset (DeviceClock.init "p")
    { DeviceClock.init "p" with offset := 5 } rfl rfl
    (by norm_num [DeviceClock.init])

/-- C7: a measurement batch aggregates only the probes that succeeded —
`sampleCount` counts the successful measurements and `totalAttempts` the
whole batch — and it fails with the no-successful-measurements error exactly
when zero probes succeed; in a 10-probe batch with 3 timeouts the result has
`sampleCount = 7` and `totalAttempts = 10`. -/
theorem latency_batch_statistics :
    (∀ ms : List LatMeasurement,
      calculateLatencyStatistics ms
          = Except.error "No successful latency measurements"
        ↔ (ms.filter (·.success)).length = 0) ∧
    (∀ (ms : List LatMeasurement) (s : LatencyStats),
      calculateLatencyStatistics ms = Except.ok s →
        s.sampleCount = (ms.filter (·.success)).length ∧
        s.totalAttempts = ms.length) ∧
    (Except.map LatencyStats.sampleCount
        (calculateLatencyStatistics
          (performLatencyMeasurement 1000 100 scenarioERtts)) = Except.ok 7 ∧
     Except.map LatencyStats.totalAttempts
        (calculateLatencyStatistics
          (performLatencyMeasurement 1000 100 scenarioERtts)) = Except.ok 10) := by
  refine ⟨fun ms => ?_, fun ms s h => ?_, ?_, ?_⟩
  · simp only [calculateLatencyStatistics]
    split
    · simp_all
    · simp_all
  · revert h
    simp only [calculateLatencyStatistics]
    split
    · intro h
      exact absurd h (by simp)
    · intro h
      cases h
      exact ⟨rfl, rfl⟩
  · norm_num [calculateLatencyStatistics, performLatencyMeasurement,
      scenarioERtts, singleLatencyMeasurement, List.filter, Except.map]
  · norm_num [calculateLatencyStatistics, performLatencyMeasurement,
      scenarioERtts, singleLatencyMeasurement, List.filter, Except.map]

theorem latency_batch_statistics_witness :
    calculateLatencyStatistics (performLatencyMeasurement 1000 100 scenarioERtts)
        = Except.ok scenarioEStats ∧
    scenarioEStats.sampleCount = 7 ∧ scenarioEStats.totalAttempts = 10 := by
  have hok : calculateLatencyStatistics
      (performLatencyMeasurement 1000 100 scenarioERtts)
        = Except.ok scenarioEStats := by
    norm_num [calculateLatencyStatistics, performLatencyMeasurement,
      scenarioERtts, singleLatencyMeasurement, List.filter, scenarioEStats,
      listMean, listSum, listMedian, sortAsc, insertAsc, listVariance,
      listJitter, consecutiveDiffs, assessLatencyQuality]
  refine ⟨hok, ?_, ?_⟩
  · rw [(latency_batch_statistics.2.1 _ _ hok).1]
    norm_num [performLatencyMeasurement, scenarioERtts,
      singleLatencyMeasurement, List.filter]
  · rw [(latency_batch_statistics.2.1 _ _ hok).2]
    norm_num [performLatencyMeasurement, scenarioERtts,
      singleLatencyMeasurement]
